import Mathlib

/-!
Shallow embedding of `docs/update-index.py` (markdown brain index updater).

Python strings are modelled as `List Char`; the script's text processing
(`split`, `strip`, `lower`, substring `in`, slicing) is translated to
executable list functions.  Fallible file reads are modelled as an
`Option (List Char)` content argument.
-/

set_option maxRecDepth 65536

/-- Characters of a string literal: the `List Char` view of a Python string. -/
def str (s : String) : List Char := s.data

/-- Python whitespace for `str.strip` / `str.split()`:
space, tab, newline, carriage return, vertical tab, form feed. -/
def isPySpace (c : Char) : Bool :=
  c == ' ' || c == '\t' || c == '\n' || c == '\r' ||
  c == Char.ofNat 11 || c == Char.ofNat 12

/-- Python `s.strip()`: drop whitespace from both ends. -/
def pystrip (l : List Char) : List Char :=
  ((l.dropWhile isPySpace).reverse.dropWhile isPySpace).reverse

/-- Python `s.lower()` (per-character lowercasing). -/
def pylower (l : List Char) : List Char := l.map Char.toLower

/-- Python `content.split('\n')`. -/
def splitNL : List Char → List (List Char)
  | [] => [[]]
  | '\n' :: rest => [] :: splitNL rest
  | c :: rest =>
    match splitNL rest with
    | [] => [[c]]
    | p :: ps => (c :: p) :: ps

/-- Python `content.split('\n\n')`: split on non-overlapping occurrences
of two consecutive newlines, scanning left to right. -/
def splitNN : List Char → List (List Char)
  | [] => [[]]
  | '\n' :: '\n' :: rest => [] :: splitNN rest
  | c :: rest =>
    match splitNN rest with
    | [] => [[c]]
    | p :: ps => (c :: p) :: ps

/-- Python `needle in hay` (substring containment). -/
def pyIn (needle : List Char) : List Char → Bool
  | [] => needle.isEmpty
  | c :: t => needle.isPrefixOf (c :: t) || pyIn needle t

/-- Python `line.split()[0]`: the first whitespace-delimited token of a
line.  The only call site (`extract_metadata`'s header loop) guards with
`line.startswith('#')`, so the token exists there. -/
def firstToken (l : List Char) : List Char :=
  (l.dropWhile isPySpace).takeWhile (fun c => !isPySpace c)

/-- Python `str.title()`: the first alphabetic character of each run of
alphabetic characters is uppercased, the others lowercased. -/
def pytitleGo : Bool → List Char → List Char
  | _, [] => []
  | prevAlpha, c :: rest =>
    if c.isAlpha then
      (if prevAlpha then c.toLower else c.toUpper) :: pytitleGo true rest
    else
      c :: pytitleGo false rest

/-- Python `s.title()`. -/
def pytitle (l : List Char) : List Char := pytitleGo false l

/-- Decimal digits of a natural number, as characters. -/
def natChars (n : Nat) : List Char := (toString n).data

/-- Two-digit zero padding (`%m`, `%d`, `%H`, `%M`, `%S`). -/
def pad2 (n : Nat) : List Char :=
  if n < 10 then '0' :: natChars n else natChars n

/-- Four-digit zero padding (`%Y`). -/
def pad4 (n : Nat) : List Char :=
  if n < 10 then '0' :: '0' :: '0' :: natChars n
  else if n < 100 then '0' :: '0' :: natChars n
  else if n < 1000 then '0' :: natChars n
  else natChars n

/-- A `datetime.datetime` value, to calendar-field precision. -/
structure PyDateTime where
  year : Nat
  month : Nat
  day : Nat
  hour : Nat
  minute : Nat
  second : Nat
deriving Repr, DecidableEq

/-- Chronological (lexicographic) comparison of datetimes, as used by
`sorted(..., key=lambda x: x["modified"])`. -/
def PyDateTime.leb (a b : PyDateTime) : Bool :=
  if a.year ≠ b.year then decide (a.year < b.year)
  else if a.month ≠ b.month then decide (a.month < b.month)
  else if a.day ≠ b.day then decide (a.day < b.day)
  else if a.hour ≠ b.hour then decide (a.hour < b.hour)
  else if a.minute ≠ b.minute then decide (a.minute < b.minute)
  else decide (a.second ≤ b.second)

/-- Python `d.strftime('%Y-%m-%d')`. -/
def strftimeYMD (d : PyDateTime) : List Char :=
  pad4 d.year ++ str "-" ++ pad2 d.month ++ str "-" ++ pad2 d.day

/-- Python `d.strftime('%Y-%m-%d %H:%M')`. -/
def strftimeYMDHM (d : PyDateTime) : List Char :=
  strftimeYMD d ++ str " " ++ pad2 d.hour ++ str ":" ++ pad2 d.minute

/-- Python `d.isoformat()` (microseconds zero, hence omitted). -/
def pyIsoFormat (d : PyDateTime) : List Char :=
  strftimeYMD d ++ str "T" ++ pad2 d.hour ++ str ":" ++ pad2 d.minute ++
    str ":" ++ pad2 d.second

/-- `CATEGORY_PATTERNS` from `update-index.py`, in declared (insertion)
order: category label, list of lowercase keyword patterns. -/
def CATEGORY_PATTERNS : List (List Char × List (List Char)) :=
  [ (str "Authentication System",
      [str "auth", str "login", str "signin", str "signup", str "session"]),
    (str "Admin & Management",
      [str "admin", str "dashboard", str "management"]),
    (str "Development & UI",
      [str "ui", str "component", str "theme", str "development", str "log"]),
    (str "API Documentation",
      [str "api", str "endpoint", str "route"]),
    (str "Security",
      [str "security", str "permission", str "rate", str "audit"]),
    (str "Configuration",
      [str "config", str "setup", str "env", str "settings"]),
    (str "Notes & Memos",
      [str "memo", str "note", str "todo", str "reminder"]) ]

/-- `tag_patterns` from `extract_metadata`, in declared order. -/
def tag_patterns : List (List Char) :=
  [str "authentication", str "ui", str "api", str "security",
   str "admin", str "development", str "configuration"]

/-- The result dict of `extract_metadata`. -/
structure Metadata where
  title : List Char
  category : List Char
  tags : List (List Char)
  summary : List Char
  headers : List (Nat × List Char)
deriving Repr, DecidableEq

/-- The fallback title: `Path(file_path).stem.replace("_", " ").replace("-", " ").title()`. -/
def defaultTitle (stem : List Char) : List Char :=
  pytitle (stem.map (fun c => if c == '_' || c == '-' then ' ' else c))

/-- Title from the first `'# '` line among the first 10 lines, if any:
`for line in lines[:10]: if line.startswith('# '): ... line[2:].strip()`. -/
def titleFromLines (lines : List (List Char)) : Option (List Char) :=
  ((lines.take 10).find? (fun line => (str "# ").isPrefixOf line)).map
    (fun line => pystrip (line.drop 2))

/-- One step of the header loop:
`if line.startswith('#'): level = len(line.split()[0]);
 if level <= 3: record (level, line.lstrip('#').strip())`. -/
def headerOfLine (line : List Char) : Option (Nat × List Char) :=
  if (str "#").isPrefixOf line then
    let level := (firstToken line).length
    if level ≤ 3 then some (level, pystrip (line.dropWhile (· == '#')))
    else none
  else none

/-- Whether a category's keyword list matches the lowercased content:
`any(pattern in content_lower for pattern in patterns)`. -/
def catMatches (lower : List Char) (cp : List Char × List (List Char)) : Bool :=
  cp.2.any (fun pat => pyIn pat lower)

/-- The category loop: first `CATEGORY_PATTERNS` entry (in declared order)
with a keyword match wins; otherwise the initial `"Uncategorized"` stands. -/
def categoryOf (lower : List Char) : List Char :=
  match CATEGORY_PATTERNS.find? (catMatches lower) with
  | some cp => cp.1
  | none => str "Uncategorized"

/-- The tag loop: `for tag in tag_patterns: if tag in content_lower:
tags.append('#' + tag)`. -/
def tagsOf (lower : List Char) : List (List Char) :=
  tag_patterns.filterMap
    (fun tag => if pyIn tag lower then some ('#' :: tag) else none)

/-- `[p.strip() for p in content.split('\n\n') if p.strip() and not
p.strip().startswith('#')]`. -/
def pyParagraphs (content : List Char) : List (List Char) :=
  (splitNN content).filterMap (fun p =>
    let ps := pystrip p
    if !ps.isEmpty && !(str "#").isPrefixOf ps then some ps else none)

/-- `paragraphs[0][:200] + "..." if len(paragraphs[0]) > 200 else
paragraphs[0]`, or the initial `""` when no paragraph qualifies. -/
def summaryOf (content : List Char) : List Char :=
  match pyParagraphs content with
  | [] => []
  | p :: _ => if 200 < p.length then p.take 200 ++ str "..." else p

/-- `extract_metadata(file_path)`: `stem` is `Path(file_path).stem`;
`content?` is `some` the file's text, or `none` when the `open`/`read`
raises (in which case the initial metadata dict is returned unchanged). -/
def extract_metadata (stem : List Char) (content? : Option (List Char)) :
    Metadata :=
  match content? with
  | none =>
    { title := defaultTitle stem
      category := str "Uncategorized"
      tags := []
      summary := []
      headers := [] }
  | some content =>
    let lines := splitNL content
    let lower := pylower content
    { title := (titleFromLines lines).getD (defaultTitle stem)
      category := categoryOf lower
      tags := tagsOf lower
      summary := summaryOf content
      headers := lines.filterMap headerOfLine }

/-- One `doc_info` record from `scan_documents`, with its extracted
metadata merged in (`full_path` and `headers` are not consumed by the
renderer or persister and are omitted). -/
structure Doc where
  path : List Char
  name : List Char
  modified : PyDateTime
  size : Nat
  title : List Char
  category : List Char
  tags : List (List Char)
  summary : List Char
deriving Repr

/-- `sorted(documents, key=lambda x: x["modified"], reverse=True)`:
stable descending sort by modification time. -/
def docsByDate (documents : List Doc) : List Doc :=
  documents.mergeSort (fun a b => PyDateTime.leb b.modified a.modified)

/-- The Quick Access lines: `for doc in docs_by_date[:5]:
f"- [{title}]({path}) - {modified:%Y-%m-%d}\n"`. -/
def quickAccessEntries (documents : List Doc) : List (List Char) :=
  ((docsByDate documents).take 5).map (fun d =>
    str "- [" ++ d.title ++ str "](" ++ d.path ++ str ") - " ++
      strftimeYMD d.modified ++ str "\n")

/-- The keys of `docs_by_category` in insertion order (first occurrence
of each category while iterating `documents`). -/
def categoriesOf (documents : List Doc) : List (List Char) :=
  documents.foldl
    (fun acc d => if acc.contains d.category then acc else acc ++ [d.category])
    []

/-- Lexicographic (code-point) comparison of Python strings. -/
def strLe : List Char → List Char → Bool
  | [], _ => true
  | _ :: _, [] => false
  | a :: as, b :: bs => if a == b then strLe as bs else decide (a < b)

/-- Python `sorted` on a list of strings. -/
def sortStr (l : List (List Char)) : List (List Char) := l.mergeSort strLe

/-- One line of a category section:
`summary = f" - {doc['summary'][:60]}..." if doc['summary'] else ""` then
`f"- [{title}]({path}){summary}\n"`. -/
def docLine (d : Doc) : List Char :=
  let summaryTail :=
    if !d.summary.isEmpty then str " - " ++ d.summary.take 60 ++ str "..."
    else []
  str "- [" ++ d.title ++ str "](" ++ d.path ++ str ")" ++ summaryTail ++
    str "\n"

/-- One category section: heading, the category's documents sorted by
file name, then a blank line. -/
def categorySection (documents : List Doc) (c : List Char) : List Char :=
  str "### " ++ c ++ str "\n" ++
    (((documents.filter (fun d => d.category == c)).mergeSort
        (fun a b => strLe a.name b.name)).map docLine).flatten ++
    str "\n"

/-- `max(documents, key=lambda x: x['size'])` on a non-empty list:
the first document of maximal size. -/
def pyMaxBySize (d : Doc) (ds : List Doc) : Doc :=
  ds.foldl (fun best x => if best.size < x.size then x else best) d

/-- `sorted(all_tags)` where `all_tags` is the set union of every
record's tags: sorted distinct tags. -/
def allTags (documents : List Doc) : List (List Char) :=
  sortStr ((documents.flatMap (fun d => d.tags)).foldl
    (fun acc t => if acc.contains t then acc else acc ++ [t]) [])

/-- Everything `generate_index` appends after the embedded current-time
field (the time appears exactly once, in the header's Last Updated line). -/
def indexAfterTime (documents : List Doc) : List Char :=
  str "\n> Total Documents: " ++ natChars documents.length ++
    str "\n\n## 🎯 Quick Access\n" ++
    (quickAccessEntries documents).flatten ++
    str "\n## 📁 By Category\n\n" ++
    ((sortStr (categoriesOf documents)).map (categorySection documents)).flatten ++
    str "## 📊 Statistics\n\n- **Total Documents**: " ++
    natChars documents.length ++
    str "\n- **Categories**: " ++ natChars (categoriesOf documents).length ++
    str "\n- **Last Update**: " ++
    (match docsByDate documents with
     | [] => str "N/A"
     | d :: _ => strftimeYMDHM d.modified) ++
    str "\n- **Largest Document**: " ++
    (match documents with
     | [] => str "N/A"
     | d :: ds => (pyMaxBySize d ds).name) ++
    str "\n\n## 🏷️ All Tags\n" ++
    (if (allTags documents).isEmpty then []
     else List.intercalate (str " ") (allTags documents) ++ str "\n") ++
    str "\n---\n*Auto-generated by update-index.py*\n"

/-- `generate_index(documents)`, with the `datetime.now()` read at the
Last Updated field factored out as the `now` parameter. -/
def generate_index (now : PyDateTime) (documents : List Doc) : List Char :=
  str "# 📚 Markdown Brain Index\n\n> Last Updated: " ++ strftimeYMDHM now ++
    indexAfterTime documents

/-- One entry of the snapshot's `documents` array. -/
structure SnapshotDoc where
  path : List Char
  title : List Char
  category : List Char
  tags : List (List Char)
  modified : List Char
  size : Nat
deriving Repr

/-- The object serialized by `update_metadata_json`. -/
structure Snapshot where
  last_updated : List Char
  document_count : Nat
  documents : List SnapshotDoc
deriving Repr

/-- `update_metadata_json(documents)`: the metadata object written to
`metadata.json`, with `datetime.now()` factored out as `now`. -/
def update_metadata_json (now : PyDateTime) (documents : List Doc) :
    Snapshot :=
  { last_updated := pyIsoFormat now
    document_count := documents.length
    documents := documents.map (fun d =>
      { path := d.path
        title := d.title
        category := d.category
        tags := d.tags
        modified := pyIsoFormat d.modified
        size := d.size }) }

/-! ## Theorems -/

/-- C6: when the file's content cannot be read (`content? = none`),
extraction still returns a record with every derived field at its
default: title is the stem with `_`/`-` replaced by spaces and
title-cased, category is `"Uncategorized"`, tags, summary and headers
are empty. -/
theorem extract_defaults_on_unreadable (stem : List Char) :
    (extract_metadata stem none).title
        = pytitle (stem.map (fun c => if c == '_' || c == '-' then ' ' else c)) ∧
    (extract_metadata stem none).category = str "Uncategorized" ∧
    (extract_metadata stem none).tags = [] ∧
    (extract_metadata stem none).summary = [] ∧
    (extract_metadata stem none).headers = [] :=
  ⟨rfl, rfl, rfl, rfl, rfl⟩

/-- C5: for every record list, the persisted snapshot's `document_count`
equals the number of records, its `documents` array lists exactly the
records' paths in order, and hence every path occurs in the snapshot
exactly as often as in the scan. -/
theorem snapshot_count_and_paths (now : PyDateTime) (documents : List Doc) :
    (update_metadata_json now documents).document_count = documents.length ∧
    (update_metadata_json now documents).documents.map SnapshotDoc.path
        = documents.map Doc.path ∧
    ∀ p : List Char,
      ((update_metadata_json now documents).documents.map SnapshotDoc.path).count p
        = (documents.map Doc.path).count p := by
  have h2 : (update_metadata_json now documents).documents.map SnapshotDoc.path
      = documents.map Doc.path := by
    simp [update_metadata_json, List.map_map]
  exact ⟨rfl, h2, fun p => by rw [h2]⟩

/-- C7: on the empty document list, index generation completes (the
guarded `max`/first-element branches take their `'N/A'` arms) and the
output reports 0 documents, 0 categories and `N/A` for both the
most-recent timestamp and the largest document. -/
theorem generate_index_empty (now : PyDateTime) :
    generate_index now [] =
      str "# 📚 Markdown Brain Index\n\n> Last Updated: " ++
        strftimeYMDHM now ++
        str "\n> Total Documents: 0\n\n## 🎯 Quick Access\n\n## 📁 By Category\n\n## 📊 Statistics\n\n- **Total Documents**: 0\n- **Categories**: 0\n- **Last Update**: N/A\n- **Largest Document**: N/A\n\n## 🏷️ All Tags\n\n---\n*Auto-generated by update-index.py*\n" := by
  have h : indexAfterTime [] =
      str "\n> Total Documents: 0\n\n## 🎯 Quick Access\n\n## 📁 By Category\n\n## 📊 Statistics\n\n- **Total Documents**: 0\n- **Categories**: 0\n- **Last Update**: N/A\n- **Largest Document**: N/A\n\n## 🏷️ All Tags\n\n---\n*Auto-generated by update-index.py*\n" := by
    simp only [indexAfterTime, quickAccessEntries, docsByDate, sortStr,
      categoriesOf, allTags, List.foldl_nil, List.flatMap_nil,
      List.mergeSort_nil, List.take_nil, List.map_nil, List.flatten_nil]
    decide
  show str "# 📚 Markdown Brain Index\n\n> Last Updated: " ++ strftimeYMDHM now ++
      indexAfterTime [] = _
  rw [h]

/-- C8: index generation is deterministic modulo the clock: for a fixed
record list, the outputs at two times agree outside the embedded
current-time field (one shared prefix and one shared suffix, both
independent of the time, surround the formatted time). -/
theorem generate_index_deterministic_mod_time (t₁ t₂ : PyDateTime)
    (documents : List Doc) :
    ∃ pre post : List Char,
      generate_index t₁ documents = pre ++ strftimeYMDHM t₁ ++ post ∧
      generate_index t₂ documents = pre ++ strftimeYMDHM t₂ ++ post :=
  ⟨str "# 📚 Markdown Brain Index\n\n> Last Updated: ",
   indexAfterTime documents, rfl, rfl⟩

/-- C10: the Quick Access section has exactly `min 5 n` entries for `n`
input records: all documents are listed when fewer than five exist. -/
theorem quick_access_count (documents : List Doc) :
    (quickAccessEntries documents).length = min 5 documents.length := by
  simp [quickAccessEntries, docsByDate]

/-- C3 counterexample: the line `"#ab"` begins with exactly one `'#'`
marker, yet the code records the header entry `(3, "ab")` — the length
of the first whitespace-delimited token — and no entry of level 1. -/
theorem header_level_counterexample :
    (extract_metadata (str "f") (some (str "#ab"))).headers = [(3, str "ab")] ∧
    ((extract_metadata (str "f") (some (str "#ab"))).headers.contains
        (1, str "ab")) = false := by
  decide

/-- C4 counterexample: `"authentication"` is a tag keyword but is a
member of no category's keyword set (and so is `"configuration"`). -/
theorem tag_not_in_category_sets :
    tag_patterns.contains (str "authentication") = true ∧
    CATEGORY_PATTERNS.all (fun cp => !cp.2.contains (str "authentication")) = true ∧
    tag_patterns.contains (str "configuration") = true ∧
    CATEGORY_PATTERNS.all (fun cp => !cp.2.contains (str "configuration")) = true := by
  decide

/-- C4 (amended): every tag keyword contains some category keyword as a
substring (rather than being a member of a category keyword set); the
tag list is not a subset of the union of category keywords, and the
union also has members that are not tag keywords. -/
theorem tag_keywords_substring_closure :
    tag_patterns.all
        (fun t => CATEGORY_PATTERNS.any (fun cp => cp.2.any (fun k => pyIn k t)))
      = true ∧
    tag_patterns.any
        (fun t => CATEGORY_PATTERNS.all (fun cp => !cp.2.contains t)) = true ∧
    CATEGORY_PATTERNS.any
        (fun cp => cp.2.any (fun k => !tag_patterns.contains k)) = true := by
  decide

/-- `find?` returns the element at the least index satisfying the
predicate. -/
lemma find?_first {α : Type} (p : α → Bool) :
    ∀ (l : List α) (i : Nat) (hi : i < l.length),
      p (l.get ⟨i, hi⟩) = true →
      (∀ j, (hj : j < i) → p (l.get ⟨j, Nat.lt_trans hj hi⟩) = false) →
      l.find? p = some (l.get ⟨i, hi⟩) := by
  intro l
  induction l with
  | nil => intro i hi _ _; simp at hi
  | cons a as ih =>
    intro i hi hp hprior
    cases i with
    | zero => exact List.find?_cons_of_pos _ hp
    | succ i' =>
      have ha : p a = false := hprior 0 (Nat.succ_pos i')
      rw [List.find?_cons_of_neg _ (by simp [ha])]
      exact ih i' (Nat.lt_of_succ_lt_succ hi) hp
        (fun j hj => hprior (j + 1) (Nat.succ_lt_succ hj))

/-- C1: category assignment is first-match in the declared order of
`CATEGORY_PATTERNS`: if entry `i` matches the lowercased content and no
earlier entry does, the record's category is entry `i`'s label; if no
entry matches, it is `"Uncategorized"`. -/
theorem category_first_match :
    (∀ (stem content : List Char) (i : Nat) (hi : i < CATEGORY_PATTERNS.length),
      catMatches (pylower content) (CATEGORY_PATTERNS.get ⟨i, hi⟩) = true →
      (∀ j, (hj : j < i) →
        catMatches (pylower content)
          (CATEGORY_PATTERNS.get ⟨j, Nat.lt_trans hj hi⟩) = false) →
      (extract_metadata stem (some content)).category
        = (CATEGORY_PATTERNS.get ⟨i, hi⟩).1) ∧
    (∀ stem content : List Char,
      (∀ cp ∈ CATEGORY_PATTERNS, catMatches (pylower content) cp = false) →
      (extract_metadata stem (some content)).category = str "Uncategorized") := by
  constructor
  · intro stem content i hi hp hprior
    show categoryOf (pylower content) = _
    unfold categoryOf
    rw [find?_first (catMatches (pylower content)) CATEGORY_PATTERNS i hi hp hprior]
  · intro stem content hall
    show categoryOf (pylower content) = _
    unfold categoryOf
    rw [List.find?_eq_none.mpr (fun cp hcp => by simp [hall cp hcp])]

/-- C1 witness: `"login dashboard"` matches both the Authentication
System entry (index 0, via `"login"`) and the Admin & Management entry
(via `"dashboard"`); the assigned category is the earlier one.  A
content matching nothing gets `"Uncategorized"`. -/
theorem category_first_match_witness :
    (extract_metadata (str "doc") (some (str "login dashboard"))).category
        = (CATEGORY_PATTERNS.get ⟨0, by decide⟩).1 ∧
    (extract_metadata (str "doc") (some (str "zzz"))).category
        = str "Uncategorized" :=
  ⟨category_first_match.1 (str "doc") (str "login dashboard") 0 (by decide)
      (by decide) (fun j hj => absurd hj (Nat.not_lt_zero j)),
   category_first_match.2 (str "doc") (str "zzz") (by decide)⟩

/-- C2: the summary is the first paragraph that is non-empty after
stripping and does not start with `'#'`: truncated to 200 characters
plus `"..."` when longer than 200, verbatim otherwise, and empty when
no paragraph qualifies. -/
theorem summary_truncation (stem content : List Char) :
    (pyParagraphs content = [] →
      (extract_metadata stem (some content)).summary = []) ∧
    (∀ p rest, pyParagraphs content = p :: rest →
      (200 < p.length →
        (extract_metadata stem (some content)).summary
          = p.take 200 ++ str "...") ∧
      (p.length ≤ 200 →
        (extract_metadata stem (some content)).summary = p)) := by
  constructor
  · intro h
    show summaryOf content = []
    unfold summaryOf
    rw [h]
  · intro p rest h
    constructor
    · intro hlen
      show summaryOf content = _
      unfold summaryOf
      rw [h]
      simp [hlen]
    · intro hlen
      show summaryOf content = _
      unfold summaryOf
      rw [h]
      simp [Nat.not_lt.mpr hlen]

/-- C2 witness: a 250-character paragraph is truncated to its first 200
characters plus `"..."`; a short paragraph is kept verbatim; a content
whose only paragraph is a heading has an empty summary. -/
theorem summary_truncation_witness :
    (extract_metadata (str "d") (some (List.replicate 250 'a'))).summary
        = (List.replicate 250 'a').take 200 ++ str "..." ∧
    (extract_metadata (str "d") (some (str "hi"))).summary = str "hi" ∧
    (extract_metadata (str "d") (some (str "# h"))).summary = [] :=
  ⟨((summary_truncation (str "d") (List.replicate 250 'a')).2
      (List.replicate 250 'a') [] (by decide)).1 (by decide),
   ((summary_truncation (str "d") (str "hi")).2 (str "hi") [] (by decide)).2
      (by decide),
   (summary_truncation (str "d") (str "# h")).1 (by decide)⟩

/-- A Python-whitespace character is not `'#'`. -/
lemma space_ne_hash {c : Char} (hc : isPySpace c = true) : (c == '#') = false := by
  cases h : c == '#' with
  | false => rfl
  | true =>
    rw [beq_iff_eq] at h
    subst h
    simp [isPySpace] at hc

/-- C3 (amended): headers are extracted line by line in document order
by `headerOfLine`; a line whose leading run of 1–3 `'#'` markers is
followed by whitespace or the end of the line is recorded with level
equal to the marker count and the marker-stripped trimmed text; a line
starting with `'#'` whose first whitespace-delimited token is longer
than three characters (in particular one with more than three markers)
records no entry.  (The recorded level is the length of the line's first
whitespace-delimited token, not always the marker count: see the
counterexample.) -/
theorem header_token_rule :
    (∀ stem content : List Char,
      (extract_metadata stem (some content)).headers
        = (splitNL content).filterMap headerOfLine) ∧
    (∀ (k : Nat) (rest : List Char), 1 ≤ k → k ≤ 3 →
      (rest = [] ∨ ∃ c rest', rest = c :: rest' ∧ isPySpace c = true) →
      headerOfLine (List.replicate k '#' ++ rest) = some (k, pystrip rest)) ∧
    (∀ line : List Char, (str "#").isPrefixOf line = true →
      3 < (firstToken line).length → headerOfLine line = none) := by
  refine ⟨fun stem content => rfl, ?_, ?_⟩
  · intro k rest h1 h3 hrest
    have htake : ∀ n,
        (List.replicate n '#' ++ rest).takeWhile (fun c => !isPySpace c)
          = List.replicate n '#' := by
      intro n
      induction n with
      | zero =>
        rcases hrest with rfl | ⟨c, rest', rfl, hc⟩
        · rfl
        · simp [List.takeWhile_cons, hc]
      | succ n ih =>
        simpa [List.replicate_succ, List.takeWhile_cons,
          show isPySpace '#' = false from rfl] using ih
    have hdropH : ∀ n, List.dropWhile (· == '#') (List.replicate n '#' ++ rest)
        = rest := by
      intro n
      induction n with
      | zero =>
        rcases hrest with rfl | ⟨c, rest', rfl, hc⟩
        · rfl
        · simp [List.dropWhile_cons, space_ne_hash hc]
      | succ n ih =>
        simpa [List.replicate_succ, List.dropWhile_cons] using ih
    cases k with
    | zero => omega
    | succ n =>
      have hpre : (str "#").isPrefixOf (List.replicate (n + 1) '#' ++ rest)
          = true := by
        rw [show str "#" = ['#'] by decide,
            show List.replicate (n + 1) '#' ++ rest
              = '#' :: (List.replicate n '#' ++ rest) from rfl]
        simp [List.isPrefixOf]
      have hfirst : firstToken (List.replicate (n + 1) '#' ++ rest)
          = List.replicate (n + 1) '#' := by
        unfold firstToken
        rw [show List.replicate (n + 1) '#' ++ rest
              = '#' :: (List.replicate n '#' ++ rest) from rfl,
            List.dropWhile_cons]
        simp only [show isPySpace '#' = false from rfl, Bool.false_eq_true,
          if_false]
        exact htake (n + 1)
      unfold headerOfLine
      rw [if_pos hpre]
      simp only [hfirst, List.length_replicate, hdropH (n + 1), if_pos h3]
  · intro line h1 h2
    unfold headerOfLine
    rw [if_pos h1, if_neg (by omega)]

/-- C3 (amended) witness: `"## Ti"` yields the entry `(2, "Ti")`;
`"####x"` (first token of length 5) yields none; header extraction on a
concrete content is the per-line filter in document order. -/
theorem header_token_rule_witness :
    (extract_metadata (str "f") (some (str "## Ti\n#### deep"))).headers
        = (splitNL (str "## Ti\n#### deep")).filterMap headerOfLine ∧
    headerOfLine (List.replicate 2 '#' ++ (' ' :: str "Ti"))
        = some (2, pystrip (' ' :: str "Ti")) ∧
    headerOfLine (str "####x") = none :=
  ⟨header_token_rule.1 (str "f") (str "## Ti\n#### deep"),
   header_token_rule.2.1 2 (' ' :: str "Ti") (by decide) (by decide)
      (Or.inr ⟨' ', str "Ti", rfl, by decide⟩),
   header_token_rule.2.2 (str "####x") (by decide) (by decide)⟩

/-- `pyIn` decides list-infix containment. -/
lemma pyIn_iff {needle hay : List Char} : pyIn needle hay = true ↔ needle <:+: hay := by
  induction hay with
  | nil => simp [pyIn, List.isEmpty_iff]
  | cons c t ih => simp [pyIn, List.infix_cons_iff, ih]

/-- Substring containment is transitive (Python `in` composed through an
intermediate string). -/
lemma pyIn_trans {a b c : List Char} (h1 : pyIn a b = true)
    (h2 : pyIn b c = true) : pyIn a c = true :=
  pyIn_iff.mpr ((pyIn_iff.mp h1).trans (pyIn_iff.mp h2))

/-- Every tag keyword contains some category keyword as a substring. -/
lemma tag_has_category_keyword :
    ∀ t ∈ tag_patterns,
      ∃ cp ∈ CATEGORY_PATTERNS, ∃ k ∈ cp.2, pyIn k t = true := by
  decide

/-- C9: a record extracted from readable content with a non-empty tag
sequence is never `"Uncategorized"`: each tag keyword contains a
category keyword as a substring, so any tag match forces a category
match. -/
theorem tags_imply_categorized (stem content : List Char)
    (h : (extract_metadata stem (some content)).tags ≠ []) :
    (extract_metadata stem (some content)).category ≠ str "Uncategorized" := by
  have htags : tagsOf (pylower content) ≠ [] := h
  have hex : ∃ t ∈ tag_patterns, pyIn t (pylower content) = true := by
    by_contra hall
    push_neg at hall
    apply htags
    unfold tagsOf
    apply List.filterMap_eq_nil_iff.mpr
    intro t ht
    simp [hall t ht]
  obtain ⟨t, ht, hin⟩ := hex
  obtain ⟨cp, hcp, k, hk, hkt⟩ := tag_has_category_keyword t ht
  have hmatch : catMatches (pylower content) cp = true :=
    List.any_eq_true.mpr ⟨k, hk, pyIn_trans hkt hin⟩
  have hsome : (CATEGORY_PATTERNS.find? (catMatches (pylower content))).isSome :=
    List.find?_isSome.mpr ⟨cp, hcp, hmatch⟩
  obtain ⟨cp', hcp'⟩ := Option.isSome_iff_exists.mp hsome
  show categoryOf (pylower content) ≠ _
  unfold categoryOf
  rw [hcp']
  have hmem : cp' ∈ CATEGORY_PATTERNS := List.mem_of_find?_eq_some hcp'
  have hlabels : ∀ x ∈ CATEGORY_PATTERNS, x.1 ≠ str "Uncategorized" := by decide
  exact hlabels cp' hmem

/-- C9 witness: a content containing `"api"` gets the tag `"#api"`, a
non-empty tag list, and indeed a category other than `"Uncategorized"`. -/
theorem tags_imply_categorized_witness :
    (extract_metadata (str "d") (some (str "api notes"))).category
      ≠ str "Uncategorized" :=
  tags_imply_categorized (str "d") (str "api notes") (by decide)
